import Mathlib

/-!
Verification of the SpaceTravel software renderer's camera and pipeline
against its specification.  The Rust source is shallowly embedded:
`f32` values become real numbers, structs become Lean structures, and
each Rust method becomes a pure function from the old state to the new
state.  Modules of the repository that are not present under `src/`
(`vertex.rs`, `fragment.rs`, `color.rs`, `framebuffer.rs`, `planet.rs`)
are modelled from the specification, and are marked as such.
-/

set_option maxHeartbeats 1000000

open scoped Classical

noncomputable section

namespace SpaceTravel

/-- Rust `f32::clamp(lo, hi)` over the reals: `min (max x lo) hi`
(the source never calls it with `lo > hi`). -/
def rclamp (x lo hi : ℝ) : ℝ := min (max x lo) hi

/-- Truncation toward zero over the reals, the rounding used by Rust's
float remainder operator. -/
def rtrunc (x : ℝ) : ℝ := if 0 ≤ x then (⌊x⌋ : ℝ) else (⌈x⌉ : ℝ)

/-- Rust `%` on floats: remainder with the sign of the dividend,
`a - b * trunc (a / b)`. -/
def rustRem (a b : ℝ) : ℝ := a - b * rtrunc (a / b)

/-- Rust `f32::atan2(self = y, other = x)`: the angle of the point
`(x, y)` in `(-π, π]`, with `atan2 0 0 = 0`. -/
def atan2 (y x : ℝ) : ℝ :=
  if 0 < x then Real.arctan (y / x)
  else if x < 0 then
    (if 0 ≤ y then Real.arctan (y / x) + Real.pi else Real.arctan (y / x) - Real.pi)
  else
    (if 0 < y then Real.pi / 2 else if y < 0 then -(Real.pi / 2) else 0)

/-- Rust's saturating `f32 as usize` cast over the real model: negative
values saturate to `0`, positive values truncate (the `usize::MAX`
saturation point is irrelevant at the sizes the renderer uses). -/
def f32_to_usize (x : ℝ) : ℕ := ⌊x⌋₊

/-- Rust's saturating `f32 as u8` cast over the real model. -/
def u8cast (x : ℝ) : ℕ := min 255 ⌊x⌋₊

/-- Rust's saturating `f32 as u64` cast over the real model. -/
def u64cast (x : ℝ) : ℕ := min (2 ^ 64 - 1) ⌊x⌋₊

/-- nalgebra-glm `Vec3` with real components. -/
@[ext] structure Vec3 where
  x : ℝ
  y : ℝ
  z : ℝ

namespace Vec3

instance : Add Vec3 := ⟨fun a b => ⟨a.x + b.x, a.y + b.y, a.z + b.z⟩⟩

instance : Sub Vec3 := ⟨fun a b => ⟨a.x - b.x, a.y - b.y, a.z - b.z⟩⟩

instance : Neg Vec3 := ⟨fun a => ⟨-a.x, -a.y, -a.z⟩⟩

instance : Zero Vec3 := ⟨⟨0, 0, 0⟩⟩

/-- `v * k` for a vector and a scalar, as nalgebra writes it. -/
def smul (v : Vec3) (k : ℝ) : Vec3 := ⟨v.x * k, v.y * k, v.z * k⟩

/-- nalgebra `magnitude`: the Euclidean norm. -/
def magnitude (v : Vec3) : ℝ := Real.sqrt (v.x ^ 2 + v.y ^ 2 + v.z ^ 2)

/-- nalgebra `normalize`: divide each component by the norm. -/
def normalize (v : Vec3) : Vec3 :=
  ⟨v.x / v.magnitude, v.y / v.magnitude, v.z / v.magnitude⟩

/-- nalgebra `cross` product. -/
def cross (a b : Vec3) : Vec3 :=
  ⟨a.y * b.z - a.z * b.y, a.z * b.x - a.x * b.z, a.x * b.y - a.y * b.x⟩

end Vec3

/-- The camera state from `src/camera.rs`.  The saved snapshot holds
`(eye, center, pitch, yaw, roll)` in the order `handle_input` saves them. -/
structure Camera where
  eye : Vec3
  center : Vec3
  up : Vec3
  has_changed : Bool
  bird_eye_active : Bool
  previous_state : Option (Vec3 × Vec3 × ℝ × ℝ × ℝ)
  yaw : ℝ
  roll : ℝ
  pitch : ℝ

namespace Camera

/-- `Camera::new` from `src/camera.rs`. -/
def new (eye center up : Vec3) : Camera :=
  { eye := eye, center := center, up := up, has_changed := true,
    bird_eye_active := false, previous_state := none,
    yaw := 0, roll := 0, pitch := 0 }

/-- `Camera::get_forward` from `src/camera.rs`: spherical-to-Cartesian
conversion of the intrinsic yaw/pitch, normalized. -/
def get_forward (c : Camera) : Vec3 :=
  (Vec3.mk (Real.cos c.yaw * Real.cos c.pitch) (Real.sin c.pitch)
    (Real.sin c.yaw * Real.cos c.pitch)).normalize

/-- `Camera::get_up` from `src/camera.rs`. -/
def get_up (c : Camera) : Vec3 := c.up

/-- `Camera::get_right` from `src/camera.rs`. -/
def get_right (c : Camera) : Vec3 := (c.get_forward.cross c.up).normalize

/-- `Camera::get_local_axes` from `src/camera.rs`. -/
def get_local_axes (c : Camera) : Vec3 × Vec3 × Vec3 :=
  let forward := c.get_forward
  let right := (forward.cross c.up).normalize
  let up := (right.cross forward).normalize
  (forward, right, up)

/-- `Camera::basis_change` from `src/camera.rs`. -/
def basis_change (c : Camera) (vector : Vec3) : Vec3 :=
  let forward := (c.center - c.eye).normalize
  let right := (forward.cross c.up).normalize
  let up := (right.cross forward).normalize
  (right.smul vector.x + up.smul vector.y + (-forward).smul vector.z).normalize

/-- `Camera::orbit` from `src/camera.rs`: re-express the eye on the
sphere of the current eye-to-center radius, advance yaw/pitch, clamp
pitch, and recompute the eye around the unchanged center. -/
def orbit (c : Camera) (delta_yaw delta_pitch : ℝ) : Camera :=
  let radius_vector := c.eye - c.center
  let radius := radius_vector.magnitude
  let current_yaw := atan2 radius_vector.z radius_vector.x
  let radius_xz :=
    Real.sqrt (radius_vector.x * radius_vector.x + radius_vector.z * radius_vector.z)
  let current_pitch := atan2 (-radius_vector.y) radius_xz
  let new_yaw := rustRem (current_yaw + delta_yaw) (2 * Real.pi)
  let new_pitch :=
    rclamp (current_pitch + delta_pitch) (-(Real.pi / 2) + 0.1) (Real.pi / 2 - 0.1)
  let new_eye := c.center +
    Vec3.mk (radius * Real.cos new_yaw * Real.cos new_pitch)
      (-radius * Real.sin new_pitch)
      (radius * Real.sin new_yaw * Real.cos new_pitch)
  { c with eye := new_eye, has_changed := true }

/-- `Camera::zoom` from `src/camera.rs`. -/
def zoom (c : Camera) (delta : ℝ) : Camera :=
  let direction := (c.center - c.eye).normalize
  { c with eye := c.eye + direction.smul delta, has_changed := true }

/-- `Camera::move_center` from `src/camera.rs`: translate both center
and eye by the same vector. -/
def move_center (c : Camera) (movement : Vec3) : Camera :=
  { c with center := c.center + movement, eye := c.eye + movement }

/-- `Camera::check_if_changed` from `src/camera.rs`, as a pure
value/state pair. -/
def check_if_changed (c : Camera) : Bool × Camera :=
  if c.has_changed then (true, { c with has_changed := false }) else (false, c)

/-- `Camera::update_center` from `src/camera.rs`. -/
def update_center (c : Camera) : Camera :=
  { c with center := c.eye + c.get_forward }

/-- `Camera::move_forward` from `src/camera.rs`. -/
def move_forward (c : Camera) (amount : ℝ) : Camera :=
  ({ c with eye := c.eye + c.get_forward.smul amount } : Camera).update_center

/-- `Camera::move_up` from `src/camera.rs`. -/
def move_up (c : Camera) (amount : ℝ) : Camera :=
  ({ c with eye := c.eye + c.get_up.smul amount } : Camera).update_center

/-- `Camera::rotate_yaw` from `src/camera.rs`. -/
def rotate_yaw (c : Camera) (angle : ℝ) : Camera :=
  ({ c with yaw := c.yaw + angle } : Camera).update_center

/-- `Camera::rotate_pitch` from `src/camera.rs`: advance pitch, clamp
to `[-π/2 + 0.1, π/2 - 0.1]`, recompute center. -/
def rotate_pitch (c : Camera) (angle : ℝ) : Camera :=
  ({ c with
      pitch := rclamp (c.pitch + angle) (-(Real.pi / 2) + 0.1) (Real.pi / 2 - 0.1) } :
    Camera).update_center

/-- `Camera::set_bird_eye_view` from `src/camera.rs`. -/
def set_bird_eye_view (c : Camera) : Camera :=
  { c with
    eye := ⟨0, 1200, 800⟩, center := ⟨0, 0, 0⟩, up := ⟨0, 1, 0⟩,
    bird_eye_active := true, has_changed := true }

/-- `Camera::set_normal_view` from `src/camera.rs`. -/
def set_normal_view (c : Camera) : Camera :=
  { c with eye := ⟨0, 0, 10⟩, center := ⟨0, 0, 0⟩, up := ⟨0, 1, 0⟩ }

/-- `Camera::update_rotation` from `src/camera.rs`: add the deltas,
then clamp roll and pitch to `[-π/4, π/4]`. -/
def update_rotation (c : Camera) (delta_roll delta_pitch delta_yaw : ℝ) : Camera :=
  { c with
    roll := rclamp (c.roll + delta_roll) (-(Real.pi / 4)) (Real.pi / 4),
    pitch := rclamp (c.pitch + delta_pitch) (-(Real.pi / 4)) (Real.pi / 4),
    yaw := c.yaw + delta_yaw }

/-- `Camera::reset_rotation` from `src/camera.rs`. -/
def reset_rotation (c : Camera) : Camera :=
  { c with roll := 0, pitch := 0, yaw := 0 }

/-- `Camera::move_camera` from `src/camera.rs`: a no-op while the
bird-eye flag is raised, otherwise free-fly movement plus either a
rotation reset (all deltas zero) or `update_rotation`. -/
def move_camera (c : Camera) (delta_time delta_roll delta_pitch delta_yaw : ℝ) :
    Camera :=
  if c.bird_eye_active then c
  else
    let forward := c.get_forward
    let right := c.get_right
    let eye1 := c.eye + forward.smul delta_time
    let eye2 := eye1 + right.smul (c.roll * delta_time)
    let eye3 := Vec3.mk eye2.x (eye2.y + c.pitch * delta_time) eye2.z
    let c1 := { c with
      eye := eye3, yaw := c.yaw + delta_yaw * delta_time,
      pitch := c.pitch + delta_pitch * delta_time }
    if delta_roll = 0 ∧ delta_pitch = 0 ∧ delta_yaw = 0 then c1.reset_rotation
    else c1.update_rotation delta_roll delta_pitch delta_yaw

/-- `Camera::move_and_rotate` from `src/camera.rs`: update yaw, clamped
pitch and clamped roll, then move the eye along the updated local axes
and recompute the center. -/
def move_and_rotate (c : Camera) (delta_time : ℝ)
    (inputs : ℝ × ℝ × ℝ × ℝ × ℝ × ℝ) : Camera :=
  let forward_input := inputs.1
  let right_input := inputs.2.1
  let up_input := inputs.2.2.1
  let delta_roll := inputs.2.2.2.1
  let delta_pitch := inputs.2.2.2.2.1
  let delta_yaw := inputs.2.2.2.2.2
  let c1 := { c with
    yaw := c.yaw + delta_yaw * delta_time,
    pitch := rclamp (c.pitch + delta_pitch * delta_time)
      (-(Real.pi / 2) + 0.1) (Real.pi / 2 - 0.1),
    roll := rclamp (c.roll + delta_roll * delta_time)
      (-(Real.pi / 4)) (Real.pi / 4) }
  let axes := c1.get_local_axes
  let forward := axes.1
  let right := axes.2.1
  let up := axes.2.2
  let eye1 := c1.eye + forward.smul (forward_input * delta_time)
  let eye2 := eye1 + right.smul (right_input * delta_time)
  let eye3 := eye2 + up.smul (up_input * delta_time)
  let eye4 := eye3 + forward.smul (c1.roll * delta_time)
  ({ c1 with eye := eye4 } : Camera).update_center

/-- The `Key::B` branch of `handle_input` in `src/main.rs`: if the
bird-eye flag is down, snapshot `(eye, center, pitch, yaw, roll)`, call
`set_bird_eye_view`, and raise the flag. -/
def enter_fixed_overview (c : Camera) : Camera :=
  if c.bird_eye_active then c
  else
    { ({ c with
        previous_state := some (c.eye, c.center, c.pitch, c.yaw, c.roll) } :
        Camera).set_bird_eye_view with bird_eye_active := true }

/-- The release branch of `handle_input` in `src/main.rs`: while the
bird-eye flag is raised and a snapshot exists, restore the five saved
fields, clear the snapshot and lower the flag. -/
def exit_fixed_overview (c : Camera) : Camera :=
  if c.bird_eye_active then
    match c.previous_state with
    | some s =>
        { c with
          eye := s.1, center := s.2.1, pitch := s.2.2.1,
          yaw := s.2.2.2.1, roll := s.2.2.2.2,
          previous_state := none, bird_eye_active := false }
    | none => c
  else c

/-- The roll-adjustment branch of `handle_input` in `src/main.rs`:
`roll += adjustment` then clamp to `[-0.1, 0.1]`. -/
def roll_adjust (c : Camera) (adjustment : ℝ) : Camera :=
  { c with roll := rclamp (c.roll + adjustment) (-0.1) 0.1 }

/-- The roll-reset branch of `handle_input` in `src/main.rs`. -/
def roll_zero (c : Camera) : Camera := { c with roll := 0 }

/-- The `Key::Q` / `Key::E` branches of `handle_input` in
`src/main.rs`: raise or lower the eye directly. -/
def eye_y_add (c : Camera) (amount : ℝ) : Camera :=
  { c with eye := Vec3.mk c.eye.x (c.eye.y + amount) c.eye.z }

/-- `instant_warp` from `src/main.rs`. -/
def instant_warp (c : Camera) (target : Vec3) : Camera :=
  { c with eye := target + Vec3.mk 0 0 10, center := target }

/-- The bird-eye repositioning in the main loop of `src/main.rs`
(executed while the flag is raised). -/
def bird_eye_reposition (c : Camera) : Camera :=
  { c with eye := ⟨0, 45, 45⟩, center := ⟨0, 0, 0⟩ }

end Camera

/-- Screen-space pixel position with real components.  Modelled from the
spec: `fragment.rs` is not under `src/`; §3 gives the Fragment's
"screen-space integer-ish pixel position". -/
@[ext] structure Vec2 where
  x : ℝ
  y : ℝ

/-- Modelled from the spec: `color.rs` is not under `src/`.  §3 and §4.5
describe colors as small RGB palettes that are linearly interpolated,
scaled by intensity and finally packed into a 32-bit value. -/
@[ext] structure Color where
  r : ℝ
  g : ℝ
  b : ℝ

namespace Color

/-- `Color::new(r, g, b)`. -/
def new (r g b : ℝ) : Color := ⟨r, g, b⟩

/-- Modelled from the spec: componentwise linear interpolation between
two palette colors (`Color::lerp`). -/
def lerp (a b : Color) (t : ℝ) : Color :=
  ⟨a.r + (b.r - a.r) * t, a.g + (b.g - a.g) * t, a.b + (b.b - a.b) * t⟩

/-- Scaling of a color by a scalar (`Color * f32` in the source). -/
def scale (c : Color) (k : ℝ) : Color := ⟨c.r * k, c.g * k, c.b * k⟩

/-- Modelled from the spec: `Color::to_hex` packs the channels into a
32-bit `0xRRGGBB` value, saturating each channel to `[0, 255]`. -/
def to_hex (c : Color) : ℕ := u8cast c.r * 65536 + u8cast c.g * 256 + u8cast c.b

end Color

/-- The fragment produced by the rasterizer.  Modelled from the spec:
`fragment.rs` is not under `src/`; §3 lists a screen-space position, an
interpolated depth, an interpolated light intensity and the interpolated
pre-transform surface position, matching the fields `position`, `depth`,
`intensity` and `vertex_position` used by `src/shaders.rs` and
`src/main.rs`. -/
structure Fragment where
  position : Vec2
  depth : ℝ
  intensity : ℝ
  vertex_position : Vec3

/-- 4×4 real matrix standing for nalgebra-glm `Mat4`. -/
abbrev Mat4 := Matrix (Fin 4) (Fin 4) ℝ

/-- 3×3 real matrix standing for nalgebra-glm `Mat3`. -/
abbrev Mat3 := Matrix (Fin 3) (Fin 3) ℝ

/-- The external noise collaborator (`FastNoiseLite`), modelled per §6
as an opaque pair of pure sampling functions. -/
structure NoiseGen where
  get_noise_2d : ℝ → ℝ → ℝ
  get_noise_3d : ℝ → ℝ → ℝ → ℝ

/-- The per-draw-call uniform bundle from `src/main.rs`. -/
structure Uniforms where
  model_matrix : Mat4
  view_matrix : Mat4
  projection_matrix : Mat4
  viewport_matrix : Mat4
  time : ℕ
  noise : NoiseGen

/-- The vertex record.  Modelled from the spec: `vertex.rs` is not under
`src/`; §3 lists the fields, matching the construction in
`src/shaders.rs`. -/
structure Vertex where
  position : Vec3
  normal : Vec3
  tex_coords : ℝ × ℝ
  color : Color
  transformed_position : Vec3
  transformed_normal : Vec3

/-- nalgebra-glm `mat4_to_mat3`: the top-left 3×3 linear part. -/
def mat4_to_mat3 (m : Mat4) : Mat3 :=
  Matrix.submatrix m Fin.castSucc Fin.castSucc

/-- Application of a 3×3 matrix to a `Vec3`. -/
def mulVec3 (m : Mat3) (v : Vec3) : Vec3 :=
  let w := m.mulVec ![v.x, v.y, v.z]
  ⟨w 0, w 1, w 2⟩

/-- `Mat3::try_inverse().unwrap_or(identity)` from `src/shaders.rs`:
the inverse when the determinant is nonzero, the identity otherwise. -/
def try_inverse_or_identity (m : Mat3) : Mat3 :=
  if m.det ≠ 0 then m⁻¹ else 1

/-- `vertex_shader` from `src/shaders.rs`: model-view-projection
transform, perspective divide, viewport transform, and normal transform
through the inverse of the transposed 3×3 model part (identity fallback
when singular). -/
def vertex_shader (vertex : Vertex) (uniforms : Uniforms) : Vertex :=
  let position : Fin 4 → ℝ :=
    ![vertex.position.x, vertex.position.y, vertex.position.z, 1]
  let transformed :=
    (uniforms.projection_matrix * uniforms.view_matrix *
      uniforms.model_matrix).mulVec position
  let w := transformed 3
  let ndc_position : Fin 4 → ℝ :=
    ![transformed 0 / w, transformed 1 / w, transformed 2 / w, 1]
  let screen_position := uniforms.viewport_matrix.mulVec ndc_position
  let model_mat3 := mat4_to_mat3 uniforms.model_matrix
  let normal_matrix := try_inverse_or_identity model_mat3.transpose
  let transformed_normal := mulVec3 normal_matrix vertex.normal
  { position := vertex.position, normal := vertex.normal,
    tex_coords := vertex.tex_coords, color := vertex.color,
    transformed_position := ⟨screen_position 0, screen_position 1, screen_position 2⟩,
    transformed_normal := transformed_normal }

/-- The material tag from `planet.rs`.  The exhaustive match over it in
`src/main.rs` (the trail-color match in the main loop) names exactly
these eleven variants, fixing the enumeration. -/
inductive PlanetType where
  | Sun
  | RockyPlanet
  | Earth
  | CrystalPlanet
  | FirePlanet
  | WaterPlanet
  | CloudPlanet
  | Moon
  | Asteroid
  | Spaceship
  | Trail
deriving DecidableEq

/-- The eleven material tags handled by name in the `fragment_shader`
dispatch in `src/shaders.rs`. -/
def recognizedTags : List PlanetType :=
  [PlanetType.Sun, PlanetType.RockyPlanet, PlanetType.Earth,
   PlanetType.CrystalPlanet, PlanetType.FirePlanet, PlanetType.WaterPlanet,
   PlanetType.CloudPlanet, PlanetType.Moon, PlanetType.Asteroid,
   PlanetType.Spaceship, PlanetType.Trail]

/-- `blend_layers` from `src/shaders.rs`. -/
def blend_layers (base_color overlay_color : Color) : Color :=
  base_color.lerp overlay_color 0.5

/-- `calculate_trail_effect` from `src/shaders.rs`. -/
def calculate_trail_effect (fragment : Fragment) (uniforms : Uniforms) : Color :=
  let intensity := |fragment.position.y * Real.sin (uniforms.time : ℝ)|
  Color.new (u8cast (intensity * 255) : ℝ) (u8cast (intensity * 100) : ℝ) 200

/-- `cloud_shader` from `src/shaders.rs`. -/
def cloud_shader (fragment : Fragment) (uniforms : Uniforms) : Color :=
  let zoom : ℝ := 100
  let ox : ℝ := 100
  let oy : ℝ := 100
  let x := fragment.vertex_position.x
  let y := fragment.vertex_position.y
  let t := (uniforms.time : ℝ) * 0.5
  let noise_value := uniforms.noise.get_noise_2d (x * zoom + ox + t) (y * zoom + oy)
  let cloud_threshold : ℝ := 0.5
  let cloud_color := Color.new 255 255 255
  let sky_color := Color.new 30 97 145
  let noise_color := if noise_value > cloud_threshold then cloud_color else sky_color
  noise_color.scale fragment.intensity

/-- `rocky_planet_shader` from `src/shaders.rs`. -/
def rocky_planet_shader (fragment : Fragment) (uniforms : Uniforms) : Color :=
  let zoom : ℝ := 30
  let x := fragment.vertex_position.x
  let y := fragment.vertex_position.y
  let noise_value := uniforms.noise.get_noise_2d (x * zoom) (y * zoom)
  let small_noise_value := uniforms.noise.get_noise_2d (x * zoom * 2) (y * zoom * 2)
  let medium_noise_value :=
    uniforms.noise.get_noise_2d (x * zoom * 0.5) (y * zoom * 0.5)
  let very_small_noise_value :=
    uniforms.noise.get_noise_2d (x * zoom * 4) (y * zoom * 4)
  let base_rock_color := Color.new 156 156 156
  let lighter_rock_color := Color.new 200 200 200
  let dark_rock_color := Color.new 100 100 100
  let brown_rock_color := Color.new 140 120 60
  let rust_rock_color := Color.new 120 80 40
  let rocky_surface_color := Color.new 90 70 50
  let base_color :=
    if noise_value > 0.5 then lighter_rock_color else base_rock_color
  let detailed_color :=
    if medium_noise_value > 0.5 then brown_rock_color else dark_rock_color
  let oxide_layer_color :=
    if very_small_noise_value > 0.5 then rust_rock_color else rocky_surface_color
  let texture_color := base_color.lerp detailed_color |small_noise_value|
  let final_color := texture_color.lerp oxide_layer_color |small_noise_value|
  let layered_color := detailed_color
  let dot_noise := uniforms.noise.get_noise_2d (x * zoom * 10) (y * zoom * 10)
  let dotted_effect := rclamp |dot_noise * 2| 0 1
  let dotted_color := layered_color.lerp (Color.new 120 120 120) dotted_effect
  let roughness_effect := rclamp (noise_value * 0.3 + small_noise_value * 0.7) 0.2 1
  let rough_color := dotted_color.scale roughness_effect
  let ambient_light : ℝ := 0.7
  let light_intensity : ℝ := 1
  let illuminated_color := rough_color.scale (ambient_light + light_intensity * 0.8)
  (illuminated_color.scale fragment.intensity).scale 1.95

/-- `sun_shader` from `src/shaders.rs`. -/
def sun_shader (fragment : Fragment) (uniforms : Uniforms) : Color :=
  let bright_color := Color.new 255 240 0
  let dark_color := Color.new 211 84 0
  let position := Vec3.mk fragment.vertex_position.x fragment.vertex_position.y
    fragment.depth
  let base_frequency : ℝ := 0.2
  let pulsate_amplitude : ℝ := 0.5
  let t := (uniforms.time : ℝ) * 0.01
  let pulsate := Real.sin (t * base_frequency) * pulsate_amplitude
  let zoom : ℝ := 1000
  let noise_value1 := uniforms.noise.get_noise_3d (position.x * zoom)
    (position.y * zoom) ((position.z + pulsate) * zoom)
  let noise_value2 := uniforms.noise.get_noise_3d ((position.x + 1000) * zoom)
    ((position.y + 1000) * zoom) ((position.z + 1000 + pulsate) * zoom)
  let noise_value := (noise_value1 + noise_value2) * 0.5
  let color := dark_color.lerp bright_color noise_value
  color.scale fragment.intensity

/-- `moon_shader` from `src/shaders.rs`. -/
def moon_shader (fragment : Fragment) (uniforms : Uniforms) : Color :=
  let zoom : ℝ := 100
  let x := fragment.vertex_position.x
  let y := fragment.vertex_position.y
  let noise_value := uniforms.noise.get_noise_2d (x * zoom) (y * zoom)
  let moon_color := Color.new 200 200 200
  let crater_color := Color.new 150 150 150
  let final_color := if noise_value > 0.5 then crater_color else moon_color
  let rotation_effect := Real.sin ((uniforms.time : ℝ) * 0.1) * 0.1
  let rotated_color := final_color.lerp (Color.new 255 255 255) rotation_effect
  rotated_color.scale fragment.intensity

/-- `earth_shader` from `src/shaders.rs`. -/
def earth_shader (fragment : Fragment) (uniforms : Uniforms) : Color :=
  let zoom : ℝ := 30
  let x := fragment.vertex_position.x
  let y := fragment.vertex_position.y
  let noise_value := uniforms.noise.get_noise_2d (x * zoom) (y * zoom)
  let land_noise := uniforms.noise.get_noise_2d (x * zoom * 3) (y * zoom * 3)
  let land_color := Color.new 34 139 34
  let water_color := Color.new 0 0 255
  let island_color := Color.new 0 255 0
  let base_color := if noise_value > 0.5 then land_color else water_color
  let island_effect := if land_noise > 0.5 then island_color else Color.new 0 0 0
  let cloud_color := cloud_shader fragment uniforms
  let final_color := (base_color.lerp cloud_color 0.5).lerp island_effect 0.5
  final_color.scale fragment.intensity

/-- `cloud_planet_shader` from `src/shaders.rs`. -/
def cloud_planet_shader (fragment : Fragment) (uniforms : Uniforms) : Color :=
  let zoom : ℝ := 50
  let x := fragment.vertex_position.x
  let y := fragment.vertex_position.y
  let t := (uniforms.time : ℝ) * 0.5
  let noise_value1 := uniforms.noise.get_noise_2d (x * zoom + t) (y * zoom + t)
  let noise_value2 := uniforms.noise.get_noise_2d (x * zoom * 0.5 + t) (y * zoom * 0.5)
  let noise_value3 := uniforms.noise.get_noise_2d (x * zoom * 2 + t) (y * zoom * 2)
  let cloud_color := Color.new 255 255 255
  let sky_color := Color.new 135 206 235
  let cloud_shadow_color := Color.new 200 200 200
  let cloud_threshold1 : ℝ := 0.4
  let cloud_threshold2 : ℝ := 0.6
  let cloud_threshold3 : ℝ := 0.8
  let noise_color0 := sky_color
  let noise_color1 :=
    if noise_value1 > cloud_threshold1 then
      noise_color0.lerp cloud_color ((noise_value1 - cloud_threshold1) / (1 - cloud_threshold1))
    else noise_color0
  let noise_color2 :=
    if noise_value2 > cloud_threshold2 then
      noise_color1.lerp cloud_shadow_color ((noise_value2 - cloud_threshold2) / (1 - cloud_threshold2))
    else noise_color1
  let noise_color3 :=
    if noise_value3 > cloud_threshold3 then
      noise_color2.lerp cloud_color ((noise_value3 - cloud_threshold3) / (1 - cloud_threshold3))
    else noise_color2
  noise_color3.scale fragment.intensity

/-- `crystal_planet_shader` from `src/shaders.rs`. -/
def crystal_planet_shader (fragment : Fragment) (uniforms : Uniforms) : Color :=
  let zoom : ℝ := 30
  let x := fragment.vertex_position.x
  let y := fragment.vertex_position.y
  let noise_value :=
    uniforms.noise.get_noise_2d (x * zoom + (uniforms.time : ℝ) * 0.2) (y * zoom)
  let crystal_color1 := Color.new 0 255 255
  let crystal_color2 := Color.new 255 0 255
  let color := crystal_color1.lerp crystal_color2 noise_value
  let bright_color := color.scale 1.5
  (bright_color.scale fragment.intensity).scale 2.8

/-- `striped_planet_shader` from `src/shaders.rs`. -/
def striped_planet_shader (fragment : Fragment) (uniforms : Uniforms) : Color :=
  let zoom : ℝ := 10
  let x := fragment.vertex_position.x
  let y := fragment.vertex_position.y
  let stripe_color1 := Color.new 255 100 0
  let stripe_color3 := Color.new 255 50 0
  let stripe_pattern :=
    Real.sin (y * zoom + (uniforms.time : ℝ) * 0.1) + Real.sin (x * zoom * 0.5)
  let color := if stripe_pattern > 0 then stripe_color1 else stripe_color3
  let opacity := rclamp (|stripe_pattern| * 0.5) 0 1
  (color.scale opacity).scale fragment.intensity

/-- `fire_planet_shader` from `src/shaders.rs`. -/
def fire_planet_shader (fragment : Fragment) (uniforms : Uniforms) : Color :=
  let zoom : ℝ := 80
  let x := fragment.vertex_position.x
  let y := fragment.vertex_position.y
  let noise_value :=
    uniforms.noise.get_noise_2d (x * zoom + (uniforms.time : ℝ) * 0.5) (y * zoom)
  let fire_color1 := Color.new 255 140 0
  let fire_color2 := Color.new 255 0 0
  let color := fire_color1.lerp fire_color2 noise_value
  let stripe_color := striped_planet_shader fragment uniforms
  let opacity : ℝ := 0.5
  let final_color := color.lerp stripe_color opacity
  final_color.scale fragment.intensity

/-- `water_planet_shader` from `src/shaders.rs`.  The external `rand`
collaborator (`StdRng::seed_from_u64` followed by `gen_range(0.0..=1.0)`)
is modelled as the uninterpreted seed-to-draw function `rngUnit`. -/
def water_planet_shader (rngUnit : ℕ → ℝ) (fragment : Fragment)
    (uniforms : Uniforms) : Color :=
  let zoom : ℝ := 40
  let x := fragment.vertex_position.x
  let y := fragment.vertex_position.y
  let seed := u64cast (x * 1000 + y * 1000)
  let random_offset := rngUnit seed
  let noise_value := uniforms.noise.get_noise_2d (x * zoom + random_offset)
    (y * zoom + Real.sin ((uniforms.time : ℝ) * 0.1))
  let wave_effect :=
    Real.sin (Real.sin (x + (uniforms.time : ℝ) * 0.1) * 0.5 +
      Real.cos (y + (uniforms.time : ℝ) * 0.1) * 0.5) * 1
  let water_color1 := Color.new 0 0 255
  let water_color2 := Color.new 0 150 255
  let wave_intensity := wave_effect * |noise_value| * 1.5
  let color := water_color1.lerp water_color2 wave_intensity
  (color.scale fragment.intensity).scale 0.9

/-- `asteroid_shader` from `src/shaders.rs`. -/
def asteroid_shader (fragment : Fragment) (uniforms : Uniforms) : Color :=
  let zoom : ℝ := 20
  let x := fragment.vertex_position.x
  let y := fragment.vertex_position.y
  let base_noise := uniforms.noise.get_noise_2d (x * zoom) (y * zoom)
  let small_noise := uniforms.noise.get_noise_2d (x * zoom * 2) (y * zoom * 2)
  let medium_noise := uniforms.noise.get_noise_2d (x * zoom * 0.5) (y * zoom * 0.5)
  let lava_noise := uniforms.noise.get_noise_2d (x * zoom * 4) (y * zoom * 4)
  let base_color := Color.new 150 150 150
  let lighter_color := Color.new 200 200 200
  let dark_color := Color.new 100 100 100
  let rust_color := Color.new 120 80 40
  let lava_color1 := Color.new 255 100 0
  let lava_color2 := Color.new 255 50 0
  let color_variation :=
    if base_noise > 0.5 then lighter_color.lerp base_color |small_noise|
    else dark_color.lerp rust_color |medium_noise|
  let time := (uniforms.time : ℝ) * 0.5
  let blend_factor := Real.sin time * 0.5 + 0.5
  let lava_effect :=
    if lava_noise > 0.5 then lava_color1.lerp lava_color2 blend_factor
    else Color.new 0 0 0
  let final_color := color_variation.lerp lava_effect |lava_noise|
  final_color.scale fragment.intensity

/-- `fragment_shader` from `src/shaders.rs`: the material dispatch.  The
eleven variants of `PlanetType` are each matched by name; the source's
trailing `_ => Color::new(0, 0, 0)` arm is unreachable because the
enumeration is closed. -/
def fragment_shader (rngUnit : ℕ → ℝ) (fragment : Fragment)
    (uniforms : Uniforms) (planet_type : PlanetType) : Color :=
  match planet_type with
  | PlanetType.Sun => sun_shader fragment uniforms
  | PlanetType.RockyPlanet => rocky_planet_shader fragment uniforms
  | PlanetType.Earth =>
      let earth_color := earth_shader fragment uniforms
      let cloud_color := cloud_shader fragment uniforms
      blend_layers earth_color cloud_color
  | PlanetType.CrystalPlanet => crystal_planet_shader fragment uniforms
  | PlanetType.FirePlanet => fire_planet_shader fragment uniforms
  | PlanetType.WaterPlanet => water_planet_shader rngUnit fragment uniforms
  | PlanetType.CloudPlanet => cloud_planet_shader fragment uniforms
  | PlanetType.Moon => moon_shader fragment uniforms
  | PlanetType.Asteroid => asteroid_shader fragment uniforms
  | PlanetType.Trail =>
      let base_color := Color.new 100 100 255
      let trail_effect := calculate_trail_effect fragment uniforms
      blend_layers base_color trail_effect
  | PlanetType.Spaceship => Color.new 192 192 192

/-- The framebuffer.  Modelled from the spec: `framebuffer.rs` is not
under `src/`; §3 and §4.4 give a width×height color buffer, a depth
buffer, and a current drawing color. -/
structure Framebuffer where
  width : ℕ
  height : ℕ
  buffer : ℕ → ℕ → ℕ
  zbuffer : ℕ → ℕ → ℝ
  current_color : ℕ

namespace Framebuffer

/-- Modelled from the spec: `set_current_color` stores the drawing color
used by subsequent `point` calls. -/
def set_current_color (fb : Framebuffer) (color : ℕ) : Framebuffer :=
  { fb with current_color := color }

/-- Modelled from the spec (§4.4): `point(x, y, depth)` bounds-checks
the write, performs the depth test (accept iff `depth` is below the
stored depth) and on acceptance writes both the current drawing color
and the new depth. -/
def point (fb : Framebuffer) (x y : ℕ) (depth : ℝ) : Framebuffer :=
  if x < fb.width ∧ y < fb.height then
    if depth < fb.zbuffer x y then
      { fb with
        buffer := fun a b => if a = x ∧ b = y then fb.current_color else fb.buffer a b,
        zbuffer := fun a b => if a = x ∧ b = y then depth else fb.zbuffer a b }
    else fb
  else fb

end Framebuffer

/-- The fragment-processing loop body of `render` in `src/main.rs`:
cast the fragment's screen position with `as usize`, test it against
the framebuffer bounds, and only then shade and write. -/
def process_fragment (rngUnit : ℕ → ℝ) (fb : Framebuffer) (uniforms : Uniforms)
    (planet_type : PlanetType) (fragment : Fragment) : Framebuffer :=
  let x := f32_to_usize fragment.position.x
  let y := f32_to_usize fragment.position.y
  if x < fb.width ∧ y < fb.height then
    let shaded_color := fragment_shader rngUnit fragment uniforms planet_type
    let color := shaded_color.to_hex
    (fb.set_current_color color).point x y fragment.depth
  else fb

/-- The primitive-assembly loop of `render` in `src/main.rs`: indices
advance by three and a triple is pushed only while `i + 2` is still in
range, so the list is consumed three vertices at a time and a trailing
group of one or two vertices is dropped. -/
def assemble_triangles {α : Type} : List α → List (α × α × α)
  | a :: b :: c :: rest => (a, b, c) :: assemble_triangles rest
  | _ => []

/-- The documented pitch clamp interval `[-π/2 + 0.1, π/2 - 0.1]` of
`src/camera.rs`. -/
def PitchInBounds (p : ℝ) : Prop :=
  -(Real.pi / 2) + 0.1 ≤ p ∧ p ≤ Real.pi / 2 - 0.1

/-- Invariant carried by every reachable camera state: the stored pitch
and any snapshotted pitch lie within the clamp interval. -/
def PitchInv (c : Camera) : Prop :=
  PitchInBounds c.pitch ∧
  ∀ s : Vec3 × Vec3 × ℝ × ℝ × ℝ, c.previous_state = some s → PitchInBounds s.2.2.1

/-- Camera states reachable from the initial camera (`Camera::new`,
pitch 0) by the operations of `src/camera.rs` together with the direct
camera mutations performed by `src/main.rs` (`handle_input`, warping and
the bird-eye repositioning in the main loop). -/
inductive Reach : Camera → Prop where
  | init (eye center up : Vec3) : Reach (Camera.new eye center up)
  | orbit (c : Camera) (dy dp : ℝ) : Reach c → Reach (c.orbit dy dp)
  | zoom (c : Camera) (d : ℝ) : Reach c → Reach (c.zoom d)
  | move_center (c : Camera) (m : Vec3) : Reach c → Reach (c.move_center m)
  | move_forward (c : Camera) (a : ℝ) : Reach c → Reach (c.move_forward a)
  | move_up (c : Camera) (a : ℝ) : Reach c → Reach (c.move_up a)
  | rotate_yaw (c : Camera) (a : ℝ) : Reach c → Reach (c.rotate_yaw a)
  | rotate_pitch (c : Camera) (a : ℝ) : Reach c → Reach (c.rotate_pitch a)
  | set_bird_eye_view (c : Camera) : Reach c → Reach c.set_bird_eye_view
  | set_normal_view (c : Camera) : Reach c → Reach c.set_normal_view
  | update_rotation (c : Camera) (dr dp dy : ℝ) :
      Reach c → Reach (c.update_rotation dr dp dy)
  | reset_rotation (c : Camera) : Reach c → Reach c.reset_rotation
  | move_camera (c : Camera) (dt dr dp dy : ℝ) :
      Reach c → Reach (c.move_camera dt dr dp dy)
  | move_and_rotate (c : Camera) (dt : ℝ) (inputs : ℝ × ℝ × ℝ × ℝ × ℝ × ℝ) :
      Reach c → Reach (c.move_and_rotate dt inputs)
  | check_if_changed (c : Camera) : Reach c → Reach c.check_if_changed.2
  | enter_fixed_overview (c : Camera) : Reach c → Reach c.enter_fixed_overview
  | exit_fixed_overview (c : Camera) : Reach c → Reach c.exit_fixed_overview
  | roll_adjust (c : Camera) (a : ℝ) : Reach c → Reach (c.roll_adjust a)
  | roll_zero (c : Camera) : Reach c → Reach c.roll_zero
  | eye_y_add (c : Camera) (a : ℝ) : Reach c → Reach (c.eye_y_add a)
  | instant_warp (c : Camera) (t : Vec3) : Reach c → Reach (c.instant_warp t)
  | bird_eye_reposition (c : Camera) : Reach c → Reach c.bird_eye_reposition

/-- A concrete camera with the bird-eye flag raised, used as input for
the fixed-overview claims. -/
def cBird : Camera :=
  { eye := ⟨0, 0, 10⟩, center := ⟨0, 0, 0⟩, up := ⟨0, 1, 0⟩,
    has_changed := false, bird_eye_active := true, previous_state := none,
    yaw := 0, roll := 0, pitch := 0 }

/-- A trivial noise generator for concrete evaluations. -/
def noiseW : NoiseGen := ⟨fun _ _ => 0, fun _ _ _ => 0⟩

/-- Concrete uniforms with identity view/projection/viewport matrices
and a singular (zero) model matrix. -/
def uW : Uniforms :=
  { model_matrix := 0, view_matrix := 1, projection_matrix := 1,
    viewport_matrix := 1, time := 0, noise := noiseW }

/-- Concrete uniforms with identity matrices throughout. -/
def uId : Uniforms :=
  { model_matrix := 1, view_matrix := 1, projection_matrix := 1,
    viewport_matrix := 1, time := 0, noise := noiseW }

/-- A concrete input vertex. -/
def vW : Vertex :=
  { position := ⟨1, 2, 3⟩, normal := ⟨4, 5, 6⟩, tex_coords := (0, 0),
    color := ⟨7, 8, 9⟩, transformed_position := ⟨0, 0, 0⟩,
    transformed_normal := ⟨0, 0, 0⟩ }

/-- A concrete 10×10 framebuffer whose depth buffer is at a large
sentinel value. -/
def fbW : Framebuffer :=
  { width := 10, height := 10, buffer := fun _ _ => 0,
    zbuffer := fun _ _ => 1000, current_color := 0 }

/-- A fragment whose screen x-coordinate is negative (off the left edge
of the framebuffer). -/
def fragNeg : Fragment :=
  { position := ⟨-5, 3⟩, depth := 0.5, intensity := 1,
    vertex_position := ⟨0, 0, 0⟩ }

/-- A fragment whose screen x-coordinate is past the right edge. -/
def fragFar : Fragment :=
  { position := ⟨20, 3⟩, depth := 0.5, intensity := 1,
    vertex_position := ⟨0, 0, 0⟩ }

/-- A trivial stand-in for the external PRNG draw. -/
def rngW : ℕ → ℝ := fun _ => 0

theorem Vec3.add_def (a b : Vec3) : a + b = ⟨a.x + b.x, a.y + b.y, a.z + b.z⟩ := rfl

theorem Vec3.sub_def (a b : Vec3) : a - b = ⟨a.x - b.x, a.y - b.y, a.z - b.z⟩ := rfl

theorem getElem?_cons3 {α : Type} (a b c : α) (l : List α) (n : ℕ) :
    (a :: b :: c :: l)[n + 3]? = l[n]? := by
  simp [List.getElem?_cons_succ]

theorem rclamp_le (x lo hi : ℝ) : rclamp x lo hi ≤ hi := min_le_right _ _

theorem le_rclamp (x lo hi : ℝ) (h : lo ≤ hi) : lo ≤ rclamp x lo hi :=
  le_min (le_max_right _ _) h

theorem move_camera_bird_eye {c : Camera} (h : c.bird_eye_active = true)
    (dt dr dp dy : ℝ) : c.move_camera dt dr dp dy = c := by
  simp [Camera.move_camera, h]

theorem foldl_move_camera_bird {c : Camera} (h : c.bird_eye_active = true)
    (l : List (ℝ × ℝ × ℝ × ℝ)) :
    l.foldl (fun s a => s.move_camera a.1 a.2.1 a.2.2.1 a.2.2.2) c = c := by
  induction l with
  | nil => rfl
  | cons hd tl ih => rw [List.foldl_cons, move_camera_bird_eye h]; exact ih

/-- C1 (amended): while the fixed-overview (bird-eye) flag is raised,
`move_camera` — the only guarded navigation operation of the Camera — is
a no-op: the entire camera state is returned unchanged.  The other
free-fly operations are not guarded inside the Camera (see the
counterexample) and are only skipped at the `handle_input` call site. -/
theorem move_camera_noop_in_fixed_overview (c : Camera) (dt dr dp dy : ℝ)
    (h : c.bird_eye_active = true) : c.move_camera dt dr dp dy = c :=
  move_camera_bird_eye h dt dr dp dy

/-- Witness for C1's amended theorem at a concrete bird-eye camera. -/
theorem move_camera_noop_witness :
    cBird.bird_eye_active = true ∧ Camera.move_camera cBird 1 2 3 4 = cBird :=
  ⟨rfl, move_camera_noop_in_fixed_overview cBird 1 2 3 4 rfl⟩

/-- C1 (counterexample): with the bird-eye flag raised, `zoom` still
moves the eye (from `(0,0,10)` toward the origin), so not every free-fly
navigation operation is a no-op in fixed-overview mode. -/
theorem zoom_mutates_in_fixed_overview_counterexample :
    cBird.bird_eye_active = true ∧ Camera.zoom cBird 1 ≠ cBird := by
  refine ⟨rfl, fun h => ?_⟩
  have hz := congrArg (fun s => s.eye.z) h
  have h100 : Real.sqrt 100 = 10 := by
    rw [show (100 : ℝ) = 10 ^ 2 by norm_num]
    exact Real.sqrt_sq (by norm_num)
  simp [Camera.zoom, cBird, Vec3.normalize, Vec3.magnitude, Vec3.smul,
    Vec3.sub_def, Vec3.add_def, h100] at hz

/-- C2: entering fixed-overview mode from a free-fly state, performing
any sequence of (no-op) `move_camera` calls, then exiting, restores eye,
center, pitch, yaw and roll exactly, clears the snapshot and lowers the
active flag. -/
theorem enter_exit_fixed_overview_restores (c : Camera)
    (h : c.bird_eye_active = false) (l : List (ℝ × ℝ × ℝ × ℝ)) :
    ((l.foldl (fun s a => s.move_camera a.1 a.2.1 a.2.2.1 a.2.2.2)
        c.enter_fixed_overview).exit_fixed_overview).eye = c.eye ∧
    ((l.foldl (fun s a => s.move_camera a.1 a.2.1 a.2.2.1 a.2.2.2)
        c.enter_fixed_overview).exit_fixed_overview).center = c.center ∧
    ((l.foldl (fun s a => s.move_camera a.1 a.2.1 a.2.2.1 a.2.2.2)
        c.enter_fixed_overview).exit_fixed_overview).pitch = c.pitch ∧
    ((l.foldl (fun s a => s.move_camera a.1 a.2.1 a.2.2.1 a.2.2.2)
        c.enter_fixed_overview).exit_fixed_overview).yaw = c.yaw ∧
    ((l.foldl (fun s a => s.move_camera a.1 a.2.1 a.2.2.1 a.2.2.2)
        c.enter_fixed_overview).exit_fixed_overview).roll = c.roll ∧
    ((l.foldl (fun s a => s.move_camera a.1 a.2.1 a.2.2.1 a.2.2.2)
        c.enter_fixed_overview).exit_fixed_overview).previous_state = none ∧
    ((l.foldl (fun s a => s.move_camera a.1 a.2.1 a.2.2.1 a.2.2.2)
        c.enter_fixed_overview).exit_fixed_overview).bird_eye_active = false := by
  have hact : c.enter_fixed_overview.bird_eye_active = true := by
    simp [Camera.enter_fixed_overview, h]
  rw [foldl_move_camera_bird hact]
  simp [Camera.enter_fixed_overview, Camera.exit_fixed_overview,
    Camera.set_bird_eye_view, h]

/-- Witness for C2 at a concrete camera and one intervening call. -/
theorem enter_exit_fixed_overview_witness :
    (Camera.new ⟨0, 0, 10⟩ ⟨0, 0, 0⟩ ⟨0, 1, 0⟩).bird_eye_active = false ∧
    (([((1 : ℝ), (2 : ℝ), (3 : ℝ), (4 : ℝ))].foldl
        (fun s a => s.move_camera a.1 a.2.1 a.2.2.1 a.2.2.2)
        (Camera.new ⟨0, 0, 10⟩ ⟨0, 0, 0⟩ ⟨0, 1, 0⟩).enter_fixed_overview).exit_fixed_overview).eye =
      (Camera.new ⟨0, 0, 10⟩ ⟨0, 0, 0⟩ ⟨0, 1, 0⟩).eye :=
  ⟨rfl,
    (enter_exit_fixed_overview_restores (Camera.new ⟨0, 0, 10⟩ ⟨0, 0, 0⟩ ⟨0, 1, 0⟩)
      rfl [((1 : ℝ), (2 : ℝ), (3 : ℝ), (4 : ℝ))]).1⟩

/-- C7: the material enumeration is closed — every tag is one of the
eleven recognized variants, so an unrecognized tag cannot reach the
dispatch at all (the contract violation is excluded at the type
boundary) — and for every recognized tag the dispatch returns the
defined color of that tag's shading rule, without any failure path. -/
theorem fragment_shader_total_dispatch :
    (∀ t : PlanetType, t ∈ recognizedTags) ∧
    (∀ (rng : ℕ → ℝ) (f : Fragment) (u : Uniforms),
      fragment_shader rng f u PlanetType.Sun = sun_shader f u ∧
      fragment_shader rng f u PlanetType.RockyPlanet = rocky_planet_shader f u ∧
      fragment_shader rng f u PlanetType.Earth =
        blend_layers (earth_shader f u) (cloud_shader f u) ∧
      fragment_shader rng f u PlanetType.CrystalPlanet = crystal_planet_shader f u ∧
      fragment_shader rng f u PlanetType.FirePlanet = fire_planet_shader f u ∧
      fragment_shader rng f u PlanetType.WaterPlanet = water_planet_shader rng f u ∧
      fragment_shader rng f u PlanetType.CloudPlanet = cloud_planet_shader f u ∧
      fragment_shader rng f u PlanetType.Moon = moon_shader f u ∧
      fragment_shader rng f u PlanetType.Asteroid = asteroid_shader f u ∧
      fragment_shader rng f u PlanetType.Trail =
        blend_layers (Color.new 100 100 255) (calculate_trail_effect f u) ∧
      fragment_shader rng f u PlanetType.Spaceship = Color.new 192 192 192) := by
  refine ⟨fun t => ?_, fun rng f u => ?_⟩
  · cases t <;> simp [recognizedTags]
  · exact ⟨rfl, rfl, rfl, rfl, rfl, rfl, rfl, rfl, rfl, rfl, rfl⟩

/-- C9: primitive assembly takes consecutive non-overlapping triples —
`floor (n / 3)` triangles in total, the `i`-th made of vertices `3i`,
`3i+1`, `3i+2` in order, with a trailing group of one or two vertices
producing nothing. -/
theorem assemble_triangles_spec {α : Type} (vs : List α) :
    (assemble_triangles vs).length = vs.length / 3 ∧
    ∀ i : ℕ, (assemble_triangles vs)[i]? =
      (vs[3 * i]?).bind fun a =>
        (vs[3 * i + 1]?).bind fun b =>
          (vs[3 * i + 2]?).map fun c => (a, b, c) := by
  match vs with
  | a :: b :: c :: rest =>
    have ih := assemble_triangles_spec rest
    refine ⟨?_, fun i => ?_⟩
    · show (assemble_triangles rest).length + 1 = (rest.length + 3) / 3
      rw [ih.1]; omega
    · match i with
      | 0 => simp [assemble_triangles]
      | (i + 1) =>
        have e2 : 3 * (i + 1) + 2 = 3 * i + 2 + 3 := by ring
        have e1 : 3 * (i + 1) + 1 = 3 * i + 1 + 3 := by ring
        have e0 : 3 * (i + 1) = 3 * i + 3 := by ring
        rw [e2, e1, e0, getElem?_cons3, getElem?_cons3, getElem?_cons3,
          show assemble_triangles (a :: b :: c :: rest) =
            (a, b, c) :: assemble_triangles rest from rfl,
          List.getElem?_cons_succ, ih.2 i]
  | [] => refine ⟨by norm_num [assemble_triangles], fun i => ?_⟩; simp [assemble_triangles]
  | [a] =>
    refine ⟨by norm_num [assemble_triangles], fun i => ?_⟩
    match i with
    | 0 => simp [assemble_triangles]
    | (i + 1) =>
      have h2 : ([a] : List α)[3 * (i + 1)]? = none :=
        List.getElem?_eq_none (by simp only [List.length_cons, List.length_nil]; omega)
      simp [assemble_triangles, h2]
  | [a, b] =>
    refine ⟨by norm_num [assemble_triangles], fun i => ?_⟩
    match i with
    | 0 => simp [assemble_triangles]
    | (i + 1) =>
      have h2 : ([a, b] : List α)[3 * (i + 1)]? = none :=
        List.getElem?_eq_none (by simp only [List.length_cons, List.length_nil]; omega)
      simp [assemble_triangles, h2]

theorem pitchInBounds_zero : PitchInBounds 0 := by
  have h := Real.pi_gt_three
  constructor <;> [linarith; linarith]

theorem pitchInBounds_clamp_full (x : ℝ) :
    PitchInBounds (rclamp x (-(Real.pi / 2) + 0.1) (Real.pi / 2 - 0.1)) := by
  have h := Real.pi_gt_three
  exact ⟨le_rclamp _ _ _ (by linarith), rclamp_le _ _ _⟩

theorem pitchInBounds_clamp_quarter (x : ℝ) :
    PitchInBounds (rclamp x (-(Real.pi / 4)) (Real.pi / 4)) := by
  have h := Real.pi_gt_three
  constructor
  · exact le_trans (by linarith) (le_rclamp _ _ _ (by linarith))
  · exact le_trans (rclamp_le _ _ _) (by linarith)

theorem reach_pitchInv {c : Camera} (h : Reach c) : PitchInv c := by
  induction h with
  | init e ct u =>
      exact ⟨pitchInBounds_zero, fun s hs => by simp [Camera.new] at hs⟩
  | orbit c dy dp hr ih => exact ih
  | zoom c d hr ih => exact ih
  | move_center c m hr ih => exact ih
  | move_forward c a hr ih => exact ih
  | move_up c a hr ih => exact ih
  | rotate_yaw c a hr ih => exact ih
  | rotate_pitch c a hr ih => exact ⟨pitchInBounds_clamp_full _, ih.2⟩
  | set_bird_eye_view c hr ih => exact ih
  | set_normal_view c hr ih => exact ih
  | update_rotation c dr dp dy hr ih => exact ⟨pitchInBounds_clamp_quarter _, ih.2⟩
  | reset_rotation c hr ih => exact ⟨pitchInBounds_zero, ih.2⟩
  | move_camera c dt dr dp dy hr ih =>
      cases hb : c.bird_eye_active with
      | true => rw [move_camera_bird_eye hb]; exact ih
      | false =>
          simp only [Camera.move_camera, hb, Bool.false_eq_true, if_false]
          split
          · exact ⟨pitchInBounds_zero, ih.2⟩
          · exact ⟨pitchInBounds_clamp_quarter _, ih.2⟩
  | move_and_rotate c dt inputs hr ih => exact ⟨pitchInBounds_clamp_full _, ih.2⟩
  | check_if_changed c hr ih =>
      have hp : c.check_if_changed.2.pitch = c.pitch ∧
          c.check_if_changed.2.previous_state = c.previous_state := by
        unfold Camera.check_if_changed
        split <;> exact ⟨rfl, rfl⟩
      exact ⟨by rw [hp.1]; exact ih.1, fun s hs => ih.2 s (hp.2 ▸ hs)⟩
  | enter_fixed_overview c hr ih =>
      cases hb : c.bird_eye_active with
      | true => simp only [Camera.enter_fixed_overview, hb, if_true]; exact ih
      | false =>
          simp only [Camera.enter_fixed_overview, hb, Bool.false_eq_true, if_false]
          refine ⟨ih.1, fun s hs => ?_⟩
          obtain rfl := (Option.some.injEq _ _).mp hs
          exact ih.1
  | exit_fixed_overview c hr ih =>
      cases hb : c.bird_eye_active with
      | false => simp only [Camera.exit_fixed_overview, hb, Bool.false_eq_true, if_false]; exact ih
      | true =>
          rcases hp : c.previous_state with _ | s
          · simp only [Camera.exit_fixed_overview, hb, hp, if_true]; exact ih
          · simp only [Camera.exit_fixed_overview, hb, hp, if_true]
            exact ⟨ih.2 s hp, fun t ht => by simp at ht⟩
  | roll_adjust c a hr ih => exact ih
  | roll_zero c hr ih => exact ih
  | eye_y_add c a hr ih => exact ih
  | instant_warp c t hr ih => exact ih
  | bird_eye_reposition c hr ih => exact ih

/-- C4: from every camera state reachable from the initial camera, the
pitch resulting from any of the pitch-updating operations (`orbit`,
`rotate_pitch`, `move_camera`, `move_and_rotate`, `update_rotation`)
lies within the documented clamp bounds `[-π/2 + 0.1, π/2 - 0.1]`, for
every requested delta. -/
theorem pitch_within_clamp_bounds (c : Camera) (h : Reach c) :
    (∀ dy dp : ℝ, PitchInBounds ((c.orbit dy dp).pitch)) ∧
    (∀ a : ℝ, PitchInBounds ((c.rotate_pitch a).pitch)) ∧
    (∀ dt dr dp dy : ℝ, PitchInBounds ((c.move_camera dt dr dp dy).pitch)) ∧
    (∀ (dt : ℝ) (inputs : ℝ × ℝ × ℝ × ℝ × ℝ × ℝ),
      PitchInBounds ((c.move_and_rotate dt inputs).pitch)) ∧
    (∀ dr dp dy : ℝ, PitchInBounds ((c.update_rotation dr dp dy).pitch)) := by
  have inv := reach_pitchInv h
  exact ⟨fun dy dp => inv.1,
    fun a => pitchInBounds_clamp_full _,
    fun dt dr dp dy => (reach_pitchInv (Reach.move_camera c dt dr dp dy h)).1,
    fun dt inputs => pitchInBounds_clamp_full _,
    fun dr dp dy => pitchInBounds_clamp_quarter _⟩

/-- Witness for C4 at the initial camera, orbiting with a large delta. -/
theorem pitch_within_clamp_bounds_witness :
    Reach (Camera.new ⟨0, 0, 10⟩ ⟨0, 0, 0⟩ ⟨0, 1, 0⟩) ∧
    PitchInBounds (((Camera.new ⟨0, 0, 10⟩ ⟨0, 0, 0⟩ ⟨0, 1, 0⟩).rotate_pitch 100).pitch) := by
  have hr : Reach (Camera.new ⟨0, 0, 10⟩ ⟨0, 0, 0⟩ ⟨0, 1, 0⟩) :=
    Reach.init ⟨0, 0, 10⟩ ⟨0, 0, 0⟩ ⟨0, 1, 0⟩
  exact ⟨hr, (pitch_within_clamp_bounds _ hr).2.1 100⟩

theorem magnitude_spherical (ctr : Vec3) (r A B : ℝ) (hr : 0 ≤ r) :
    ((ctr + Vec3.mk (r * Real.cos A * Real.cos B) (-r * Real.sin B)
      (r * Real.sin A * Real.cos B)) - ctr).magnitude = r := by
  have h1 := Real.sin_sq_add_cos_sq A
  have h2 := Real.sin_sq_add_cos_sq B
  have hcomp : (ctr + Vec3.mk (r * Real.cos A * Real.cos B) (-r * Real.sin B)
      (r * Real.sin A * Real.cos B)) - ctr =
      Vec3.mk (r * Real.cos A * Real.cos B) (-r * Real.sin B)
        (r * Real.sin A * Real.cos B) := by
    ext <;> simp only [Vec3.add_def, Vec3.sub_def] <;> ring
  rw [hcomp]
  simp only [Vec3.magnitude]
  have key : (r * Real.cos A * Real.cos B) ^ 2 + (-r * Real.sin B) ^ 2 +
      (r * Real.sin A * Real.cos B) ^ 2 = r ^ 2 := by
    linear_combination (r ^ 2 * (Real.cos B) ^ 2) * h1 + r ^ 2 * h2
  rw [key]
  exact Real.sqrt_sq hr

/-- C3: `orbit` preserves the eye-to-center distance exactly (over the
real-valued model) and leaves the center unchanged. -/
theorem orbit_preserves_radius (c : Camera) (h : c.eye ≠ c.center) (dy dp : ℝ) :
    ((c.orbit dy dp).eye - (c.orbit dy dp).center).magnitude =
      (c.eye - c.center).magnitude ∧
    (c.orbit dy dp).center = c.center := by
  refine ⟨?_, rfl⟩
  exact magnitude_spherical c.center ((c.eye - c.center).magnitude)
    (rustRem (atan2 (c.eye - c.center).z (c.eye - c.center).x + dy) (2 * Real.pi))
    (rclamp (atan2 (-(c.eye - c.center).y)
        (Real.sqrt ((c.eye - c.center).x * (c.eye - c.center).x +
          (c.eye - c.center).z * (c.eye - c.center).z)) + dp)
      (-(Real.pi / 2) + 0.1) (Real.pi / 2 - 0.1))
    (Real.sqrt_nonneg _)

/-- Witness for C3 at a concrete camera with eye distinct from center. -/
theorem orbit_preserves_radius_witness :
    (Camera.new ⟨0, 0, 10⟩ ⟨0, 0, 0⟩ ⟨0, 1, 0⟩).eye ≠
      (Camera.new ⟨0, 0, 10⟩ ⟨0, 0, 0⟩ ⟨0, 1, 0⟩).center ∧
    (((Camera.new ⟨0, 0, 10⟩ ⟨0, 0, 0⟩ ⟨0, 1, 0⟩).orbit 1 2).eye -
        ((Camera.new ⟨0, 0, 10⟩ ⟨0, 0, 0⟩ ⟨0, 1, 0⟩).orbit 1 2).center).magnitude =
      ((Camera.new ⟨0, 0, 10⟩ ⟨0, 0, 0⟩ ⟨0, 1, 0⟩).eye -
        (Camera.new ⟨0, 0, 10⟩ ⟨0, 0, 0⟩ ⟨0, 1, 0⟩).center).magnitude := by
  have hne : (Camera.new ⟨0, 0, 10⟩ ⟨0, 0, 0⟩ ⟨0, 1, 0⟩).eye ≠
      (Camera.new ⟨0, 0, 10⟩ ⟨0, 0, 0⟩ ⟨0, 1, 0⟩).center := by
    norm_num [Camera.new, Vec3.mk.injEq]
  exact ⟨hne, (orbit_preserves_radius _ hne 1 2).1⟩

/-- C5: the vertex shader computes clip space as Projection · View ·
Model applied to the homogeneous position, divides by `w`, applies the
viewport matrix to the NDC point (with `w` component 1), stores the
result's x, y, z as the transformed position, and leaves the
object-space position, normal, texture coordinates and color
unchanged. -/
theorem vertex_shader_transform_correct (v : Vertex) (u : Uniforms)
    (hw : (u.projection_matrix.mulVec (u.view_matrix.mulVec (u.model_matrix.mulVec
      ![v.position.x, v.position.y, v.position.z, 1]))) 3 ≠ 0) :
    ((vertex_shader v u).transformed_position =
      (let clip := u.projection_matrix.mulVec (u.view_matrix.mulVec
        (u.model_matrix.mulVec ![v.position.x, v.position.y, v.position.z, 1]))
       let ndc : Fin 4 → ℝ := ![clip 0 / clip 3, clip 1 / clip 3, clip 2 / clip 3, 1]
       let screen := u.viewport_matrix.mulVec ndc
       Vec3.mk (screen 0) (screen 1) (screen 2))) ∧
    (vertex_shader v u).position = v.position ∧
    (vertex_shader v u).normal = v.normal ∧
    (vertex_shader v u).tex_coords = v.tex_coords ∧
    (vertex_shader v u).color = v.color := by
  refine ⟨?_, rfl, rfl, rfl, rfl⟩
  simp only [vertex_shader, Matrix.mulVec_mulVec, mul_assoc]

/-- Witness for C5 with identity matrices (clip-space `w` is 1). -/
theorem vertex_shader_transform_witness :
    ((uId.projection_matrix.mulVec (uId.view_matrix.mulVec (uId.model_matrix.mulVec
      ![vW.position.x, vW.position.y, vW.position.z, 1]))) 3 ≠ 0) ∧
    (vertex_shader vW uId).position = vW.position := by
  have hw : (uId.projection_matrix.mulVec (uId.view_matrix.mulVec
      (uId.model_matrix.mulVec ![vW.position.x, vW.position.y, vW.position.z, 1]))) 3 ≠ 0 := by
    simp [uId, Matrix.one_mulVec, vW]
  exact ⟨hw, (vertex_shader_transform_correct vW uId hw).2.1⟩

/-- C6: the transformed normal is the vertex normal multiplied by the
inverse of the transposed 3×3 linear part of the model matrix, and when
that 3×3 part is singular the identity fallback leaves the normal
unchanged; the function is total, so no error is raised either way. -/
theorem vertex_shader_normal_fallback (v : Vertex) (u : Uniforms) :
    (vertex_shader v u).transformed_normal =
      mulVec3 (try_inverse_or_identity (mat4_to_mat3 u.model_matrix).transpose)
        v.normal ∧
    ((mat4_to_mat3 u.model_matrix).det = 0 →
      (vertex_shader v u).transformed_normal = v.normal) := by
  refine ⟨rfl, fun hd => ?_⟩
  have hdt : (mat4_to_mat3 u.model_matrix).transpose.det = 0 := by
    rw [Matrix.det_transpose]; exact hd
  show mulVec3 (try_inverse_or_identity (mat4_to_mat3 u.model_matrix).transpose)
      v.normal = v.normal
  rw [try_inverse_or_identity, if_neg (by simp [hdt])]
  simp [mulVec3, Matrix.one_mulVec]

/-- Witness for C6 at a concrete singular (zero) model matrix. -/
theorem vertex_shader_normal_fallback_witness :
    (mat4_to_mat3 uW.model_matrix).det = 0 ∧
    (vertex_shader vW uW).transformed_normal = vW.normal := by
  have hzero : mat4_to_mat3 (0 : Mat4) = 0 := by
    ext i j; simp [mat4_to_mat3]
  have hd : (mat4_to_mat3 uW.model_matrix).det = 0 := by
    rw [show uW.model_matrix = (0 : Mat4) from rfl, hzero]
    exact Matrix.det_zero ⟨0⟩
  exact ⟨hd, (vertex_shader_normal_fallback vW uW).2 hd⟩

/-- C8 (amended): a fragment whose cast screen coordinates are at or
past the framebuffer's width or height is silently discarded — no color
or depth write happens.  (Fragments with negative coordinates are *not*
discarded: the saturating `as usize` cast maps them to column/row 0 —
see the counterexample.) -/
theorem out_of_bounds_fragment_discarded (rng : ℕ → ℝ) (fb : Framebuffer)
    (u : Uniforms) (pt : PlanetType) (frag : Fragment)
    (h : fb.width ≤ f32_to_usize frag.position.x ∨
      fb.height ≤ f32_to_usize frag.position.y) :
    process_fragment rng fb u pt frag = fb := by
  simp only [process_fragment]
  rw [if_neg (by omega)]

/-- Witness for C8's amended theorem: a fragment at screen x = 20 on a
10×10 framebuffer is discarded. -/
theorem out_of_bounds_fragment_witness :
    fbW.width ≤ f32_to_usize fragFar.position.x ∧
    process_fragment rngW fbW uW PlanetType.Spaceship fragFar = fbW := by
  have h : fbW.width ≤ f32_to_usize fragFar.position.x := by
    norm_num [fbW, fragFar, f32_to_usize]
  exact ⟨h, out_of_bounds_fragment_discarded rngW fbW uW PlanetType.Spaceship
    fragFar (Or.inl h)⟩

/-- C8 (counterexample): a fragment with a negative screen x-coordinate
is *not* discarded — the saturating `as usize` cast maps x = −5 to 0,
the bounds check passes and a depth write is performed at pixel (0,3). -/
theorem negative_fragment_written_counterexample :
    fragNeg.position.x < 0 ∧
    (process_fragment rngW fbW uW PlanetType.Spaceship fragNeg).zbuffer 0 3 ≠
      fbW.zbuffer 0 3 := by
  constructor
  · norm_num [fragNeg]
  · have hx : f32_to_usize fragNeg.position.x = 0 := by
      show ⌊fragNeg.position.x⌋₊ = 0
      rw [show fragNeg.position.x = (-5 : ℝ) from rfl]
      exact Nat.floor_of_nonpos (by norm_num)
    have hy : f32_to_usize fragNeg.position.y = 3 := by
      show ⌊fragNeg.position.y⌋₊ = 3
      rw [show fragNeg.position.y = (3 : ℝ) from rfl]
      simp
    simp only [process_fragment, hx, hy]
    rw [if_pos (by norm_num [fbW])]
    simp only [Framebuffer.point, Framebuffer.set_current_color]
    rw [if_pos (by norm_num [fbW]), if_pos (by norm_num [fbW, fragNeg])]
    norm_num [fbW, fragNeg]

/-- C10: `move_center` translates center and eye by the same vector, so
the orientation `center - eye` is exactly unchanged, and every other
camera field is untouched. -/
theorem move_center_translates (c : Camera) (m : Vec3) :
    (c.move_center m).center = c.center + m ∧
    (c.move_center m).eye = c.eye + m ∧
    (c.move_center m).center - (c.move_center m).eye = c.center - c.eye ∧
    (c.move_center m).up = c.up ∧
    (c.move_center m).yaw = c.yaw ∧
    (c.move_center m).pitch = c.pitch ∧
    (c.move_center m).roll = c.roll ∧
    (c.move_center m).bird_eye_active = c.bird_eye_active ∧
    (c.move_center m).previous_state = c.previous_state ∧
    (c.move_center m).has_changed = c.has_changed := by
  refine ⟨rfl, rfl, ?_, rfl, rfl, rfl, rfl, rfl, rfl, rfl⟩
  show (c.center + m) - (c.eye + m) = c.center - c.eye
  ext <;> simp [Vec3.add_def, Vec3.sub_def]

end SpaceTravel
